import Mathlib

/-!
Verification development for the MonadoBVR service process.

Shallow embedding of the subsystems the claims concern:
* the per-client event ring (`find_event_slot`, ipc server),
* the z-ordered multi-client layer dispatch (`_update_layers` / `_overlay_sort_func`),
* the central active-primary selection (`update_server_state`, `init_server_state`),
* the OpenXR session state machine (`oxr_session_end`, `oxr_session_frame_begin`),
* the display-timing frame-pacing engine (`adjust_app_time`, `dt_mark_point`, `dt_info`),
* the per-client render-timing helper (`u_rt_helper_predict`, `u_rt_helper_new_sample`).

Machine integers are modelled as `Nat` (unsigned) or `Int` (signed) with explicit
`% 2^64` wrapping where the C code can overflow.  `assert(...)` statements are
modelled by separate predicates (they are compiled out of release builds, so the
state-transforming functions carry release semantics).  Quantities read from the
monotonic clock are passed in as explicit arguments.
-/

set_option linter.unusedVariables false

namespace Monado

/-! ## Basic machine constants -/

/-- `UINT64_MAX`, the initial value of `oldest_event_timestamp` in `find_event_slot`. -/
def UINT64_MAX : Nat := 2 ^ 64 - 1

/-- Lowest `int32_t` value; `_update_layers` assigns it to the active primary's z. -/
def INT32_MIN : Int := -(2 ^ 31)

/-- One millisecond in nanoseconds (`U_TIME_1MS_IN_NS`, from `u_time.h`). -/
def U_TIME_1MS_IN_NS : Nat := 1000 * 1000

/-- Half a millisecond in nanoseconds (`U_TIME_HALF_MS_IN_NS`, from `u_time.h`). -/
def U_TIME_HALF_MS_IN_NS : Nat := U_TIME_1MS_IN_NS / 2

/-- Wrap a `Nat` to the range of a `uint64_t`. -/
def wrap64 (n : Nat) : Nat := n % 2 ^ 64

/-- `uint64_t` addition. -/
def add64 (a b : Nat) : Nat := wrap64 (a + b)

/-- `uint64_t` subtraction (two's complement wraparound for `a, b < 2^64`). -/
def sub64 (a b : Nat) : Nat := wrap64 (a + (2 ^ 64 - wrap64 b))

/-- Reinterpret a `uint64_t` value as `int64_t` (the `(int64_t)l` casts in
`is_within_of_each_other`). -/
def toInt64 (n : Nat) : Int :=
  if n % 2 ^ 64 < 2 ^ 63 then ((n % 2 ^ 64 : Nat) : Int)
  else ((n % 2 ^ 64 : Nat) : Int) - 2 ^ 64

/-! ## Event ring — `find_event_slot` (ipc server, ht_hand_math.hpp:986) -/

/-- One slot of a per-client event ring (`struct ipc_queued_event`; the payload
is irrelevant to slot selection and omitted). -/
structure IpcQueuedEvent where
  timestamp : Nat
  pending : Bool
deriving DecidableEq, Repr

/-- Loop of `find_event_slot`, faithful to the source: the timestamp compared
each iteration is `cs->queued_events->timestamp` — always slot 0, not slot `i` —
and `oldest_event_timestamp` is never updated from its initial `UINT64_MAX`. -/
def find_event_slot_go (ts0 : Nat) (rest : List IpcQueuedEvent) (i : Nat)
    (oldest_event_timestamp oldest_event_index : Nat) : Nat :=
  match rest with
  | [] => oldest_event_index
  | e :: rest =>
    let oldest_event_index' :=
      if ts0 < oldest_event_timestamp then i else oldest_event_index
    if !e.pending then i
    else find_event_slot_go ts0 rest (i + 1) oldest_event_timestamp oldest_event_index'

/-- `find_event_slot` over the whole ring (the ring is passed as a list of
`IPC_EVENT_QUEUE_SIZE` slots; the constant lives in a header outside src/). -/
def find_event_slot (q : List IpcQueuedEvent) : Nat :=
  match q with
  | [] => 0
  | e0 :: _ => find_event_slot_go e0.timestamp q 0 UINT64_MAX 0

/-- Modelled from the spec: "`find_slot` returns the first non-pending, else the
oldest" — the index of the slot holding the minimal timestamp (first such index
on ties), which the code's `oldest_event_index` variable is named to track. -/
def oldest_event_index_go (rest : List IpcQueuedEvent)
    (i oldest_ts oldest_idx : Nat) : Nat :=
  match rest with
  | [] => oldest_idx
  | e :: rest =>
    if e.timestamp < oldest_ts then oldest_event_index_go rest (i + 1) e.timestamp i
    else oldest_event_index_go rest (i + 1) oldest_ts oldest_idx

/-- Index of the oldest (minimal-timestamp) slot of the ring. -/
def oldest_event_index (q : List IpcQueuedEvent) : Nat :=
  oldest_event_index_go q 0 UINT64_MAX 0

/-- A fully pending ring whose oldest entry sits at index 1. -/
def C2ring : List IpcQueuedEvent :=
  [⟨5, true⟩, ⟨1, true⟩, ⟨9, true⟩]

/-- The same ring with the slots at indices 1 and 2 not pending. -/
def C2ringFree : List IpcQueuedEvent :=
  [⟨5, true⟩, ⟨1, false⟩, ⟨9, false⟩]

/-! ## Z-ordered layer dispatch — `_update_layers` (ht_hand_math.hpp:1113) -/

/-- The per-client fields `_update_layers` and `update_server_state` read
(`ipc_client_state.client_state` plus `server_thread_index`). -/
structure IpcClientState where
  session_active : Bool
  session_overlay : Bool
  session_visible : Bool
  session_focused : Bool
  z_order : Int
  server_thread_index : Int
deriving DecidableEq, Repr

/-- `struct _z_sort_data`. -/
structure ZSortData where
  index : Int
  z_order : Int
deriving DecidableEq, Repr

/-- Initialisation of one `z_data[i]` entry (lines 1119–1130): `{-1, -1}` unless
the client's session is overlay and active. -/
def baseZEntry (i : Nat) (ics : IpcClientState) : ZSortData :=
  if ics.session_overlay then
    if ics.session_active then ⟨(i : Int), ics.z_order⟩ else ⟨-1, -1⟩
  else ⟨-1, -1⟩

/-- The init loop of `_update_layers`, carrying the running client index. -/
def zDataInitFrom (i : Nat) (clients : List IpcClientState) : List ZSortData :=
  match clients with
  | [] => []
  | c :: cs => baseZEntry i c :: zDataInitFrom (i + 1) cs

/-- The `z_data` array after the init loop. -/
def zDataInit (clients : List IpcClientState) : List ZSortData :=
  zDataInitFrom 0 clients

/-- Lines 1134–1137: if an active primary exists, overwrite its entry with
`{index, INT32_MIN}`. -/
def setPrimary (zd : List ZSortData) (active : Int) : List ZSortData :=
  if 0 ≤ active then zd.set active.toNat ⟨active, INT32_MIN⟩ else zd

/-- The order `_overlay_sort_func` induces: the comparator returns a
non-positive value on `(a, b)` exactly when `a.z_order ≤ b.z_order`. -/
def zLE (a b : ZSortData) : Prop := a.z_order ≤ b.z_order

instance : DecidableRel zLE := fun a b => inferInstanceAs (Decidable (a.z_order ≤ b.z_order))

/-- Contract of `qsort` with `_overlay_sort_func`: the output is some
permutation of the input that is ordered by the comparator.  `qsort` is not
stable, so for elements comparing equal any relative order may be produced. -/
def isQsortOutput (inp outp : List ZSortData) : Prop :=
  inp.Perm outp ∧ outp.Sorted zLE

/-- The render loop (lines 1144–1172) skips entries with `index < 0`. -/
def validEntries (l : List ZSortData) : List ZSortData :=
  l.filter (fun zd => decide (0 ≤ zd.index))

/-- The client indices, in dispatch order, produced from a sorted `z_data`. -/
def renderOrder (sorted : List ZSortData) : List Int :=
  (validEntries sorted).map (fun zd => zd.index)

/-- Modelled from the spec: "Stable sort ascending by `z`" — the dispatch order
the claim asserts, computed with a stable sort (`List.insertionSort`) of the
same `z_data` array. -/
def stableRenderOrder (clients : List IpcClientState) (active : Int) : List Int :=
  renderOrder (List.insertionSort zLE (setPrimary (zDataInit clients) active))

/-- A primary client (index 0) plus two active overlays with equal `z_order`. -/
def C1clients : List IpcClientState :=
  [⟨true, false, true, true, 0, 0⟩,
   ⟨true, true, true, false, 5, 1⟩,
   ⟨true, true, true, false, 5, 2⟩]

/-- The `z_data` array for `C1clients` with active primary 0. -/
def C1input : List ZSortData := setPrimary (zDataInit C1clients) 0

/-- A legitimate `qsort` output for `C1input` in which the two equal-z overlays
come out in reversed client order. -/
def C1swapped : List ZSortData := [⟨0, INT32_MIN⟩, ⟨2, 5⟩, ⟨1, 5⟩]

/-- The stable `qsort` output for `C1input` (used by the amended witness). -/
def C1sorted : List ZSortData := [⟨0, INT32_MIN⟩, ⟨1, 5⟩, ⟨2, 5⟩]

/-! ## Active-primary selection — `update_server_state` (ht_hand_math.hpp:1322) -/

/-- The server-global fields `update_server_state` touches.  The per-client
event fan-out (lines 1385–1398) only mutates per-client visibility flags and
event queues; it does not feed back into the selected index and is out of the
scope of the claims about this function. -/
structure IpcServerState where
  threads : List IpcClientState
  active_client_index : Int
  last_active_client_index : Int
  current_slot_index : Nat
deriving DecidableEq, Repr

/-- `init_server_state` (lines 1298–1314): no active client, and every client
slot gets `server_thread_index = -1`. -/
def init_server_state (threads : List IpcClientState) : IpcServerState :=
  { threads := threads.map (fun cs => { cs with server_thread_index := -1 })
    active_client_index := -1
    last_active_client_index := -1
    current_slot_index := 0 }

/-- Total model of indexing a C array with an `int` index: `some` exactly when
the index is in bounds, `none` on the out-of-bounds (undefined-behaviour) read. -/
def listGetI {α : Type} (l : List α) (i : Int) : Option α :=
  if 0 ≤ i then l.get? i.toNat else none

/-- The fallback condition of the scan loop (lines 1359–1361): connected
(`server_thread_index >= 0`), session-active, non-overlay. -/
def fallbackCandidate (c : IpcClientState) : Bool :=
  !c.session_overlay && decide (0 ≤ c.server_thread_index) && c.session_active

/-- The fallback scan loop (lines 1353–1365), faithful to the source: the loop
has no break, so `fallback_active_application` ends at the LAST matching index. -/
def fallbackScanFrom (i : Nat) (threads : List IpcClientState)
    (set_idle : Bool) (fallback : Int) : Bool × Int :=
  match threads with
  | [] => (set_idle, fallback)
  | c :: cs =>
    if fallbackCandidate c then fallbackScanFrom (i + 1) cs false (i : Int)
    else fallbackScanFrom (i + 1) cs set_idle fallback

/-- `(set_idle, fallback_active_application)` after the scan loop. -/
def fallbackScan (threads : List IpcClientState) : Bool × Int :=
  fallbackScanFrom 0 threads true (-1)

/-- Modelled from the spec: "else first session-active, non-overlay client;
else none" — the first (lowest-index) fallback candidate. -/
def firstFallbackFrom (i : Nat) (threads : List IpcClientState) : Int :=
  match threads with
  | [] => -1
  | c :: cs => if fallbackCandidate c then (i : Int) else firstFallbackFrom (i + 1) cs

/-- Index of the first fallback candidate, `-1` when none exists. -/
def firstFallback (threads : List IpcClientState) : Int :=
  firstFallbackFrom 0 threads

/-- Lines 1353–1400 of `update_server_state`: the replacement path.  Note the
source reads `s->threads[s->active_client_index].ics` (line 1370) BEFORE testing
`s->active_client_index >= 0` inside the condition (line 1373); the `none`
result models that read being out of bounds. -/
def update_server_select (s : IpcServerState) : Option IpcServerState :=
  let scan := fallbackScan s.threads
  let set_idle := scan.1
  let fallback_active_application := scan.2
  match listGetI s.threads s.active_client_index with
  | none => none
  | some ics =>
    let active1 :=
      if ¬(ics.session_overlay = false ∧ 0 ≤ s.active_client_index ∧
            ics.session_active = true)
      then fallback_active_application
      else s.active_client_index
    let active2 := if set_idle then -1 else active1
    some { s with active_client_index := active2, last_active_client_index := active2 }

/-- `update_server_state` (index-selection core): the early-out (lines
1332–1342) keeps everything unchanged when the set active client is still
session-active and unchanged; otherwise the replacement path runs. -/
def update_server_state (s : IpcServerState) : Option IpcServerState :=
  if 0 ≤ s.active_client_index then
    match listGetI s.threads s.active_client_index with
    | none => none
    | some ics =>
      if ics.session_active = true ∧
          s.active_client_index = s.last_active_client_index then some s
      else update_server_select s
  else update_server_select s

/-- A connected, session-active, non-overlay client. -/
def C7candidate (sti : Int) : IpcClientState :=
  ⟨true, false, false, false, 0, sti⟩

/-- A connected client whose session is no longer active. -/
def C7stale (sti : Int) : IpcClientState :=
  ⟨false, false, false, false, 0, sti⟩

/-- Stale active primary at index 0; fallback candidates at indices 1 and 2. -/
def C7state : IpcServerState :=
  { threads := [C7stale 0, C7candidate 1, C7candidate 2]
    active_client_index := 0
    last_active_client_index := 0
    current_slot_index := 0 }

/-- Stale active primary at index 0 and no fallback candidate at all. -/
def C7idleState : IpcServerState :=
  { threads := [C7stale 0, C7stale 1]
    active_client_index := 0
    last_active_client_index := 0
    current_slot_index := 0 }

/-- An arbitrary connected client used by witnesses. -/
def C10client : IpcClientState := C7candidate 0

/-! ## OpenXR session state machine — `oxr_session_egl.c` -/

/-- `XrSessionState` (the values this file uses). -/
inductive XrSessionState
  | Unknown
  | Idle
  | Ready
  | Synchronized
  | Visible
  | Focused
  | Stopping
  | LossPending
  | Exiting
deriving DecidableEq, Repr

/-- The `XrResult` values returned by the modelled functions. -/
inductive XrResult
  | Success
  | FrameDiscarded
  | ErrorSessionNotRunning
  | ErrorSessionNotStopping
  | ErrorCallOrderInvalid
deriving DecidableEq, Repr

/-- The fields of `struct oxr_session` the modelled functions touch.
`has_compositor` stands for `sess->compositor != NULL`; `events` records the
session-state-changed events pushed so far (newest last). -/
structure OxrSession where
  state : XrSessionState
  has_begun : Bool
  has_ended_once : Bool
  exiting : Bool
  frame_started : Bool
  active_wait_frames : Int
  frame_id_waited : Int
  frame_id_begun : Int
  has_compositor : Bool
  events : List XrSessionState
deriving DecidableEq, Repr

/-- `is_running` (line 149). -/
def is_running (sess : OxrSession) : Bool := sess.has_begun

/-- Modelled from the spec: `oxr_event_push_XrEventDataSessionStateChanged`
lives in oxr_event.c, which is not under src/; per the spec "Every transition
enqueues a state-change event", so the push appends the new state to the
session's pending events. -/
def oxr_event_push_state_changed (sess : OxrSession) (st : XrSessionState) :
    OxrSession :=
  { sess with events := sess.events ++ [st] }

/-- `oxr_session_change_state` (line 184): push the event, then set the state. -/
def oxr_session_change_state (sess : OxrSession) (st : XrSessionState) :
    OxrSession :=
  let sess := oxr_event_push_state_changed sess st
  { sess with state := st }

/-- Modelled from the spec: `oxr_session_success_result`'s body is not under
src/; per the spec's reply shapes (`begin_frame(frame_id) → {status ∈ OK |
FRAME_DISCARDED}`) the success status is plain OK. -/
def oxr_session_success_result (sess : OxrSession) : XrResult :=
  XrResult.Success

/-- `oxr_session_end` (lines 255–291).  The external compositor calls
(`xrt_comp_discard_frame`, `xrt_comp_end_session`) are capability calls assumed
to succeed (`CALL_CHK` not triggered). -/
def oxr_session_end (sess : OxrSession) : XrResult × OxrSession :=
  if ¬ is_running sess then (XrResult.ErrorSessionNotRunning, sess)
  else if sess.state ≠ XrSessionState.Stopping then
    (XrResult.ErrorSessionNotStopping, sess)
  else
    let sess :=
      if sess.has_compositor then
        let sess :=
          if 0 < sess.frame_id_waited then { sess with frame_id_waited := -1 }
          else sess
        let sess :=
          if 0 < sess.frame_id_begun then { sess with frame_id_begun := -1 }
          else sess
        { sess with frame_started := false }
      else sess
    let sess := oxr_session_change_state sess XrSessionState.Idle
    let sess :=
      if sess.exiting then oxr_session_change_state sess XrSessionState.Exiting
      else oxr_session_change_state sess XrSessionState.Ready
    (oxr_session_success_result sess, { sess with has_begun := false })

/-- The tail of `oxr_session_frame_begin` (lines 658–662): on a non-null
compositor, begin the waited frame and move its id to `begun`. -/
def frame_begin_tail (sess : OxrSession) : OxrSession :=
  if sess.has_compositor then
    { sess with frame_id_begun := sess.frame_id_waited, frame_id_waited := -1 }
  else sess

/-- `oxr_session_frame_begin` (lines 619–667).  External compositor calls are
assumed to succeed; the semaphore release is a concurrency primitive with no
effect on the fields modelled here. -/
def oxr_session_frame_begin (sess : OxrSession) : XrResult × OxrSession :=
  if ¬ is_running sess then (XrResult.ErrorSessionNotRunning, sess)
  else if sess.active_wait_frames = 0 then (XrResult.ErrorCallOrderInvalid, sess)
  else if sess.frame_started then
    if sess.active_wait_frames ≠ 2 then (XrResult.ErrorCallOrderInvalid, sess)
    else
      let sess :=
        if sess.has_compositor then
          { sess with
            frame_id_begun := -1
            active_wait_frames := sess.active_wait_frames - 1 }
        else sess
      (XrResult.FrameDiscarded, frame_begin_tail sess)
  else
    (oxr_session_success_result sess,
      frame_begin_tail { sess with frame_started := true })

/-- A running session in STOPPING state whose client has requested exit. -/
def C6session : OxrSession :=
  { state := XrSessionState.Stopping
    has_begun := true
    has_ended_once := true
    exiting := true
    frame_started := true
    active_wait_frames := 1
    frame_id_waited := 7
    frame_id_begun := 6
    has_compositor := true
    events := [] }

/-- A running session with no outstanding `wait_frame`. -/
def C5sessionNoWait : OxrSession :=
  { C6session with
    state := XrSessionState.Focused
    exiting := false
    frame_started := false
    active_wait_frames := 0 }

/-- A running session with one outstanding `wait_frame` and no started frame. -/
def C5sessionOneWait : OxrSession :=
  { C5sessionNoWait with active_wait_frames := 1 }

/-- A running session with a started frame and two outstanding `wait_frame`s. -/
def C5sessionTwoWait : OxrSession :=
  { C5sessionNoWait with frame_started := true, active_wait_frames := 2 }

/-- A running session with a started frame and one outstanding `wait_frame`. -/
def C5sessionStartedOneWait : OxrSession :=
  { C5sessionNoWait with frame_started := true, active_wait_frames := 1 }

/-! ## Display-timing frame-pacing engine — `u_timing_frame.c` -/

/-- `enum frame_state`. -/
inductive FrameState
  | Skipped
  | Cleared
  | Predicted
  | Woke
  | Began
  | Submitted
  | Info
deriving DecidableEq, Repr

/-- `struct frame`. -/
structure Frame where
  frame_id : Int
  when_predict_ns : Nat
  wake_up_time_ns : Nat
  when_woke_ns : Nat
  when_began_ns : Nat
  when_submitted_ns : Nat
  when_infoed_ns : Nat
  current_app_time_ns : Nat
  expected_done_time_ns : Nat
  desired_present_time_ns : Nat
  predicted_display_time_ns : Nat
  present_margin_ns : Nat
  actual_present_time_ns : Nat
  earliest_present_time_ns : Nat
  state : FrameState
deriving DecidableEq, Repr

instance : Inhabited Frame :=
  ⟨⟨0, 0, 0, 0, 0, 0, 0, 0, 0, 0, 0, 0, 0, 0, FrameState.Cleared⟩⟩

/-- `NUM_FRAMES`. -/
def NUM_FRAMES : Nat := 16

/-- The scalar fields of `struct display_timing`; `frames` is the
`NUM_FRAMES`-slot ring. -/
structure DisplayTiming where
  present_offset_ns : Nat
  frame_period_ns : Nat
  app_time_ns : Nat
  padding_time_ns : Nat
  next_frame_id : Int
  app_time_max_ns : Nat
  adjust_missed_ns : Nat
  adjust_non_miss_ns : Nat
  margin_ns : Nat
  frames : List Frame
deriving DecidableEq, Repr

/-- `get_frame`: the ring slot at `frame_id % NUM_FRAMES` (the source asserts
`frame_id >= 0`, under which `Int.emod` agrees with the C index computation). -/
def get_frame (dt : DisplayTiming) (frame_id : Int) : Frame :=
  dt.frames.getD (frame_id % (NUM_FRAMES : Int)).toNat default

/-- Write back the ring slot at `frame_id % NUM_FRAMES`. -/
def set_frame (dt : DisplayTiming) (frame_id : Int) (f : Frame) : DisplayTiming :=
  { dt with frames := dt.frames.set (frame_id % (NUM_FRAMES : Int)).toNat f }

/-- `is_within_of_each_other`: `-(range) < (int64)l - (int64)r < range`. -/
def is_within_of_each_other (l r range : Nat) : Prop :=
  -(toInt64 range) < toInt64 l - toInt64 r ∧ toInt64 l - toInt64 r < toInt64 range

instance (l r range : Nat) : Decidable (is_within_of_each_other l r range) :=
  inferInstanceAs (Decidable (_ ∧ _))

/-- `is_within_half_ms`. -/
def is_within_half_ms (l r : Nat) : Prop :=
  is_within_of_each_other l r U_TIME_HALF_MS_IN_NS

instance (l r : Nat) : Decidable (is_within_half_ms l r) :=
  inferInstanceAs (Decidable (is_within_of_each_other l r U_TIME_HALF_MS_IN_NS))

/-- `adjust_app_time` (lines 312–349).  The three branches: frame missed
(increase `app_time_ns` by `adjust_missed_ns`, clamped to `app_time_max_ns`);
GPU ended within `adjust_non_miss_ns` of `margin_ns` (hold); otherwise nudge
`app_time_ns` by `adjust_non_miss_ns` downward (margin too large — unclamped
`uint64_t` subtraction) or upward. -/
def adjust_app_time (dt : DisplayTiming) (f : Frame) : DisplayTiming :=
  if f.actual_present_time_ns > f.desired_present_time_ns ∧
      ¬ is_within_half_ms f.actual_present_time_ns f.desired_present_time_ns then
    let app_time_ns := add64 dt.app_time_ns dt.adjust_missed_ns
    let app_time_ns :=
      if app_time_ns > dt.app_time_max_ns then dt.app_time_max_ns else app_time_ns
    { dt with app_time_ns := app_time_ns }
  else if is_within_of_each_other f.present_margin_ns dt.margin_ns
      dt.adjust_non_miss_ns then dt
  else if f.present_margin_ns > dt.margin_ns then
    { dt with app_time_ns := sub64 dt.app_time_ns dt.adjust_non_miss_ns }
  else
    { dt with app_time_ns := add64 dt.app_time_ns dt.adjust_non_miss_ns }

/-- `enum u_timing_point`. -/
inductive UTimingPoint
  | WakeUp
  | BeginPoint
  | Submit
deriving DecidableEq, Repr

/-- `dt_mark_point` (lines 388–412), release semantics: the `assert`s are
compiled out, so the state and the timestamp are written unconditionally. -/
def dt_mark_point (dt : DisplayTiming) (point : UTimingPoint) (frame_id : Int)
    (when_ns : Nat) : DisplayTiming :=
  let f := get_frame dt frame_id
  match point with
  | UTimingPoint.WakeUp =>
    set_frame dt frame_id { f with state := FrameState.Woke, when_woke_ns := when_ns }
  | UTimingPoint.BeginPoint =>
    set_frame dt frame_id { f with state := FrameState.Began, when_began_ns := when_ns }
  | UTimingPoint.Submit =>
    set_frame dt frame_id
      { f with state := FrameState.Submitted, when_submitted_ns := when_ns }

/-- The `assert` conditions of `dt_mark_point` that debug builds check: the
frame record must be in the phase directly preceding the marked point. -/
def dt_mark_point_assert_ok (dt : DisplayTiming) (point : UTimingPoint)
    (frame_id : Int) : Prop :=
  match point with
  | UTimingPoint.WakeUp => (get_frame dt frame_id).state = FrameState.Predicted
  | UTimingPoint.BeginPoint => (get_frame dt frame_id).state = FrameState.Woke
  | UTimingPoint.Submit => (get_frame dt frame_id).state = FrameState.Began

instance (dt : DisplayTiming) (point : UTimingPoint) (frame_id : Int) :
    Decidable (dt_mark_point_assert_ok dt point frame_id) := by
  unfold dt_mark_point_assert_ok
  match point with
  | UTimingPoint.WakeUp => exact inferInstanceAs (Decidable (_ = _))
  | UTimingPoint.BeginPoint => exact inferInstanceAs (Decidable (_ = _))
  | UTimingPoint.Submit => exact inferInstanceAs (Decidable (_ = _))

/-- The frame phase a mark writes. -/
def mark_target_state : UTimingPoint → FrameState
  | UTimingPoint.WakeUp => FrameState.Woke
  | UTimingPoint.BeginPoint => FrameState.Began
  | UTimingPoint.Submit => FrameState.Submitted

/-- The timestamp field a mark writes. -/
def mark_timestamp (f : Frame) : UTimingPoint → Nat
  | UTimingPoint.WakeUp => f.when_woke_ns
  | UTimingPoint.BeginPoint => f.when_began_ns
  | UTimingPoint.Submit => f.when_submitted_ns

/-- `dt_info` (lines 414–582), release semantics: record the feedback into the
frame, mark it INFO, then run the adaptive controller.  The
`desired_present_time_ns` argument is unused by the source (the comparison uses
the value stored at predict time); logging and tracing are elided, and the
`get_latest_frame_with_state_at_least` result feeds only the log.  `now_ns`
stands for `os_monotonic_get_ns()`. -/
def dt_info (dt : DisplayTiming) (frame_id : Int)
    (desired_present_time_ns actual_present_time_ns earliest_present_time_ns
      present_margin_ns now_ns : Nat) : DisplayTiming :=
  let f := get_frame dt frame_id
  let f :=
    { f with
      when_infoed_ns := now_ns
      actual_present_time_ns := actual_present_time_ns
      earliest_present_time_ns := earliest_present_time_ns
      present_margin_ns := present_margin_ns
      state := FrameState.Info }
  let dt := set_frame dt frame_id f
  adjust_app_time dt f

/-- A frame record in SUBMITTED state expecting presentation at 1000 ns. -/
def C9frame : Frame :=
  { (default : Frame) with
    desired_present_time_ns := 1000
    state := FrameState.Submitted }

/-- A display-timing state about to underflow: `app_time_ns = 10` with
`adjust_non_miss_ns = 4`, margin target 100 ns. -/
def C9timing : DisplayTiming :=
  { present_offset_ns := 0
    frame_period_ns := 1000
    app_time_ns := 10
    padding_time_ns := 0
    next_frame_id := 3
    app_time_max_ns := 30
    adjust_missed_ns := 7
    adjust_non_miss_ns := 4
    margin_ns := 100
    frames := List.replicate NUM_FRAMES C9frame }

/-- Three non-missed feedback samples (`actual = desired`) whose present margin
1000 ns exceeds `margin_ns + adjust_non_miss_ns`. -/
def C9run : DisplayTiming :=
  dt_info (dt_info (dt_info C9timing 0 1000 1000 990 1000 1100)
      1 1000 1000 990 1000 1101)
    2 1000 1000 990 1000 1102

/-- A display-timing state whose frame 0 is already SUBMITTED (so a WAKE_UP
mark is out of phase). -/
def C8timing : DisplayTiming :=
  { C9timing with frames := List.replicate NUM_FRAMES C9frame }

/-- A display-timing state for the C3 witness: frame 0 predicted with desired
present time 1000000 ns. -/
def C3timing : DisplayTiming :=
  { C9timing with
    app_time_ns := 20
    adjust_missed_ns := 7
    app_time_max_ns := 25
    frames :=
      List.replicate NUM_FRAMES
        { (default : Frame) with
          desired_present_time_ns := 1000000
          state := FrameState.Submitted } }

/-! ## Per-client render-timing helper — `u_render_timing.c` -/

/-- `enum u_rt_state`. -/
inductive URtState
  | Ready
  | Predicted
  | WaitLeft
  | Begun
deriving DecidableEq, Repr

/-- One entry of the helper's frame ring (`urth->frames[i]`; the `begin` field
is named `begin_time` here). -/
structure URtFrameRec where
  predicted : Nat
  wait_woke : Nat
  begin_time : Nat
  end_frame : Nat
  state : URtState
  frame_id : Int
deriving DecidableEq, Repr

instance : Inhabited URtFrameRec := ⟨⟨0, 0, 0, 0, URtState.Ready, -1⟩⟩

/-- `struct u_rt_helper`.  The ring size (`ARRAY_SIZE(urth->frames)`) comes from
a header outside src/, so the ring is a list of unconstrained length. -/
structure URtHelper where
  frames : List URtFrameRec
  last_input : Nat
  extra : Nat
  period : Nat
  last_returned : Nat
  frame_counter : Int
deriving DecidableEq, Repr

/-- The loop of `get_last_input_plus_period_at_least_greater_then`: step `val`
by `period` until it exceeds `then_ns`.  The source loops forever when
`period = 0` (its `assert(val != 0)` only catches an exact wrap to zero); the
`0 < period` guard makes the model total, and every theorem about it assumes a
positive period. -/
def walk_val (period then_ns val : Nat) : Nat :=
  if h : val ≤ then_ns ∧ 0 < period then walk_val period then_ns (val + period)
  else val
termination_by then_ns + 1 - val
decreasing_by omega

/-- `get_last_input_plus_period_at_least_greater_then` (lines 655–667). -/
def get_last_input_plus_period_at_least_greater_then (urth : URtHelper)
    (then_ns : Nat) : Nat :=
  walk_val urth.period then_ns urth.last_input

/-- `u_rt_helper_new_sample` (lines 795–808): store the broadcast prediction,
extra time and period (the trailing early-return does nothing further). -/
def u_rt_helper_new_sample (urth : URtHelper) (predict extra min_period : Nat) :
    URtHelper :=
  { urth with last_input := predict, extra := extra, period := min_period }

/-- The out-parameters of `u_rt_helper_predict`. -/
structure URtPredictResult where
  frame_id : Int
  predicted_display_time : Nat
  wake_up_time : Nat
  predicted_display_period : Nat
  min_display_period : Nat
deriving DecidableEq, Repr

/-- `u_rt_helper_predict` (lines 692–729).  `now_ns` and `now2_ns` are the two
`os_monotonic_get_ns()` reads; the `assert`s on the ring slot carry release
semantics (compiled out).  The returned display time is never below
`last_returned`, which is updated to it. -/
def u_rt_helper_predict (urth : URtHelper) (now_ns now2_ns : Nat) :
    URtPredictResult × URtHelper :=
  let frame_id := urth.frame_counter + 1
  let urth := { urth with frame_counter := frame_id }
  let at_least_ns := if now_ns < urth.last_returned then urth.last_returned else now_ns
  let predict_ns := get_last_input_plus_period_at_least_greater_then urth at_least_ns
  let urth := { urth with last_returned := predict_ns }
  let res : URtPredictResult :=
    { frame_id := frame_id
      predicted_display_time := predict_ns
      wake_up_time := sub64 predict_ns urth.period
      predicted_display_period := urth.period
      min_display_period := urth.period }
  let index := (frame_id % (urth.frames.length : Int)).toNat
  let f := urth.frames.getD index default
  let urth :=
    { urth with
      frames := urth.frames.set index
        { f with predicted := now2_ns, state := URtState.Predicted,
                 frame_id := frame_id } }
  (res, urth)

/-- Fold a sequence of `u_rt_helper_new_sample` broadcasts
`(predict, extra, min_period)` over the helper. -/
def applyNewSamples (urth : URtHelper) (samples : List (Nat × Nat × Nat)) :
    URtHelper :=
  samples.foldl (fun u s => u_rt_helper_new_sample u s.1 s.2.1 s.2.2) urth

/-- A small concrete helper state for the C4 witness. -/
def C4helper : URtHelper :=
  { frames := List.replicate 8 (default : URtFrameRec)
    last_input := 50
    extra := 0
    period := 3
    last_returned := 0
    frame_counter := 0 }

/-!
# Theorems

General list lemmas first, then the per-claim results.
-/

theorem listGetD_set_self {α : Type} :
    ∀ (l : List α) (i : Nat) (a d : α), i < l.length → (l.set i a).getD i d = a := by
  intro l
  induction l with
  | nil => intro i a d h; simp at h
  | cons x xs ih =>
    intro i a d h
    cases i with
    | zero => rfl
    | succ n =>
      simp only [List.set_cons_succ, List.getD_cons_succ]
      exact ih n a d (by simpa using h)

theorem listGetD_set_ne {α : Type} :
    ∀ (l : List α) (i j : Nat) (a d : α), i ≠ j → (l.set i a).getD j d = l.getD j d := by
  intro l
  induction l with
  | nil => intro i j a d h; simp
  | cons x xs ih =>
    intro i j a d h
    cases i with
    | zero =>
      cases j with
      | zero => exact absurd rfl h
      | succ m => rfl
    | succ n =>
      cases j with
      | zero => rfl
      | succ m =>
        simp only [List.set_cons_succ, List.getD_cons_succ]
        exact ih n m a d (fun he => h (by rw [he]))

theorem listMem_set {α : Type} :
    ∀ (l : List α) (n : Nat) (a x : α), x ∈ l.set n a → x ∈ l ∨ x = a := by
  intro l
  induction l with
  | nil => intro n a x hx; simp at hx
  | cons y ys ih =>
    intro n a x hx
    cases n with
    | zero =>
      rcases List.mem_cons.mp hx with rfl | hx
      · exact Or.inr rfl
      · exact Or.inl (List.mem_cons_of_mem y hx)
    | succ m =>
      rcases List.mem_cons.mp hx with rfl | hx
      · exact Or.inl (List.mem_cons_self x ys)
      · rcases ih m a x hx with h | h
        · exact Or.inl (List.mem_cons_of_mem y h)
        · exact Or.inr h

theorem listMem_set_self {α : Type} :
    ∀ (l : List α) (n : Nat) (a : α), n < l.length → a ∈ l.set n a := by
  intro l
  induction l with
  | nil => intro n a h; simp at h
  | cons y ys ih =>
    intro n a h
    cases n with
    | zero => exact List.mem_cons_self a ys
    | succ m => exact List.mem_cons_of_mem y (ih m a (by simpa using h))

/-- Claim C2 (code bug evidence): when a non-pending slot exists,
`find_event_slot` picks the first one; but on a fully pending ring it returns
the LAST index rather than the oldest — the loop compares
`queued_events->timestamp` (slot 0, the `[i]` subscript is missing) and never
updates `oldest_event_timestamp`, so `oldest_event_index` ends at the final
loop index. -/
theorem C2_event_slot_eviction :
    find_event_slot C2ringFree = 1 ∧
    find_event_slot C2ring = 2 ∧
    oldest_event_index C2ring = 1 := by decide

/-- Claim C7 (code bug evidence): with a stale active primary at index 0 and
fallback candidates at indices 1 and 2, `update_server_state` selects index 2 —
the scan loop has no break, so the LAST candidate wins — while the spec and the
source's own comment ("fall through to the first active application") call for
index 1; with no candidate at all it selects -1 (idle). -/
theorem C7_fallback_selects_last :
    (update_server_state C7state).map (fun s => s.active_client_index) = some 2 ∧
    firstFallback C7state.threads = 1 ∧
    (update_server_state C7idleState).map (fun s => s.active_client_index) =
      some (-1) := by decide

/-- Claim C9: the non-miss downward adjustment has no lower clamp.  From
`app_time_ns = 10` with `adjust_non_miss_ns = 4`, three feedback samples that
are not missed (`actual = desired`) and whose present margin exceeds
`margin_ns + adjust_non_miss_ns` drive `app_time_ns` to 6, then 2 (below
`adjust_non_miss_ns`), and the third subtraction wraps modulo 2^64 to
`2^64 - 2`, far above `app_time_max_ns` — so `app_time_ns` is not bounded
below by zero. -/
theorem C9_app_time_underflow_wraps :
    C9timing.app_time_ns = 10 ∧
    (dt_info C9timing 0 1000 1000 990 1000 1100).app_time_ns = 6 ∧
    (dt_info (dt_info C9timing 0 1000 1000 990 1000 1100)
        1 1000 1000 990 1000 1101).app_time_ns < C9timing.adjust_non_miss_ns ∧
    C9run.app_time_ns = 2 ^ 64 - 2 ∧
    C9timing.app_time_max_ns < C9run.app_time_ns ∧
    2 ^ 63 < C9run.app_time_ns := by decide

/-- Claim C10: under the total embedding, indexing the thread array yields a
value only when the index is non-negative, and `update_server_state` run on the
initial server state (`init_server_state` sets `active_client_index = -1`)
takes the error branch of the unchecked `threads[active_client_index]` read at
line 1370 — that read happens before the `active_client_index >= 0` test. -/
theorem C10_unchecked_active_index_read :
    (∀ (l : List IpcClientState) (i : Int), (listGetI l i).isSome → 0 ≤ i) ∧
    (∀ threads : List IpcClientState,
      update_server_state (init_server_state threads) = none) := by
  constructor
  · intro l i h
    by_contra hneg
    simp [listGetI, hneg] at h
  · intro threads
    simp [update_server_state, init_server_state, update_server_select, listGetI]

/-- Witness for C10 at a concrete one-client server. -/
theorem C10_unchecked_active_index_read_witness :
    (0 : Int) ≤ 0 ∧
    update_server_state (init_server_state [C10client]) = none :=
  ⟨C10_unchecked_active_index_read.1 [C10client] 0 (by decide),
   C10_unchecked_active_index_read.2 [C10client]⟩

/-- Claim C6: on a running session in STOPPING state, `oxr_session_end`
transitions to IDLE and then to EXITING when the client previously requested
exit (`sess.exiting`), otherwise to READY; both transitions enqueue a
session-state-changed event, and the call succeeds. -/
theorem C6_session_end_transitions (sess : OxrSession)
    (hrun : is_running sess = true)
    (hstop : sess.state = XrSessionState.Stopping) :
    (oxr_session_end sess).2.state =
      (if sess.exiting then XrSessionState.Exiting else XrSessionState.Ready) ∧
    (oxr_session_end sess).2.events =
      sess.events ++ [XrSessionState.Idle,
        if sess.exiting then XrSessionState.Exiting else XrSessionState.Ready] ∧
    (oxr_session_end sess).1 = XrResult.Success := by
  simp only [oxr_session_end, hrun, hstop, oxr_session_change_state,
    oxr_event_push_state_changed, oxr_session_success_result]
  split_ifs <;> simp_all

/-- Witness for C6 at a concrete running STOPPING session that requested exit. -/
theorem C6_session_end_transitions_witness :
    (oxr_session_end C6session).2.state = XrSessionState.Exiting ∧
    (oxr_session_end C6session).2.events =
      [XrSessionState.Idle, XrSessionState.Exiting] ∧
    (oxr_session_end C6session).1 = XrResult.Success := by
  have h := C6_session_end_transitions C6session rfl rfl
  simpa [C6session] using h

/-- Claim C5: for a running session with a compositor, `oxr_session_frame_begin`
returns CALL_ORDER when the active-wait counter is 0; with a started frame it
returns FRAME_DISCARDED exactly when two `wait_frame`s are outstanding
(decrementing the counter to 1), and CALL_ORDER otherwise; with no started
frame and an outstanding `wait_frame` it returns OK. -/
theorem C5_frame_begin_status (sess : OxrSession)
    (hrun : is_running sess = true)
    (hxc : sess.has_compositor = true) :
    (sess.active_wait_frames = 0 →
      (oxr_session_frame_begin sess).1 = XrResult.ErrorCallOrderInvalid) ∧
    (sess.frame_started = true → sess.active_wait_frames ≠ 0 →
      ((oxr_session_frame_begin sess).1 = XrResult.FrameDiscarded ↔
        sess.active_wait_frames = 2)) ∧
    (sess.frame_started = true → sess.active_wait_frames = 2 →
      (oxr_session_frame_begin sess).2.active_wait_frames = 1) ∧
    (sess.frame_started = true → sess.active_wait_frames ≠ 0 →
        sess.active_wait_frames ≠ 2 →
      (oxr_session_frame_begin sess).1 = XrResult.ErrorCallOrderInvalid) ∧
    (sess.frame_started = false → sess.active_wait_frames ≠ 0 →
      (oxr_session_frame_begin sess).1 = XrResult.Success) := by
  refine ⟨?_, ?_, ?_, ?_, ?_⟩
  · intro h0
    simp [oxr_session_frame_begin, hrun, h0]
  · intro hst hne
    by_cases h2 : sess.active_wait_frames = 2
    · simp [oxr_session_frame_begin, hrun, hst, hne, h2]
    · simp [oxr_session_frame_begin, hrun, hst, hne, h2]
  · intro hst h2
    simp [oxr_session_frame_begin, hrun, hst, h2, hxc, frame_begin_tail]
  · intro hst hne h2
    simp [oxr_session_frame_begin, hrun, hst, hne, h2]
  · intro hst hne
    simp [oxr_session_frame_begin, hrun, hst, hne, oxr_session_success_result]

/-- Witness for C5 at concrete sessions covering every case of the claim. -/
theorem C5_frame_begin_status_witness :
    (oxr_session_frame_begin C5sessionNoWait).1 = XrResult.ErrorCallOrderInvalid ∧
    (oxr_session_frame_begin C5sessionTwoWait).1 = XrResult.FrameDiscarded ∧
    (oxr_session_frame_begin C5sessionTwoWait).2.active_wait_frames = 1 ∧
    (oxr_session_frame_begin C5sessionStartedOneWait).1 =
      XrResult.ErrorCallOrderInvalid ∧
    (oxr_session_frame_begin C5sessionOneWait).1 = XrResult.Success := by
  have h0 := C5_frame_begin_status C5sessionNoWait rfl rfl
  have h2 := C5_frame_begin_status C5sessionTwoWait rfl rfl
  have h1s := C5_frame_begin_status C5sessionStartedOneWait rfl rfl
  have h1 := C5_frame_begin_status C5sessionOneWait rfl rfl
  refine ⟨h0.1 rfl, ?_, h2.2.2.1 rfl rfl, ?_, h1.2.2.2.2 rfl (by decide)⟩
  · exact (h2.2.1 rfl (by decide)).mpr rfl
  · exact h1s.2.2.2.1 rfl (by decide) (by decide)

/-- Counterexample to claim C8: with frame 0 already SUBMITTED, a WAKE_UP mark
is out of phase — the debug assertion fails — but the release-build semantics
does NOT leave the frame record unchanged: the mark is applied anyway. -/
theorem C8_release_mark_changes_record :
    ¬ dt_mark_point_assert_ok C8timing UTimingPoint.WakeUp 0 ∧
    dt_mark_point C8timing UTimingPoint.WakeUp 0 42 ≠ C8timing := by decide

/-- Claim C8 as amended: an out-of-phase mark fails the debug assertion, but in
release builds (asserts compiled out) every mark — in phase or not — is applied
unconditionally: the record's phase becomes the mark's target phase and its
timestamp field is overwritten, while every other ring slot is untouched. -/
theorem C8_amended_mark_always_applied (dt : DisplayTiming) (point : UTimingPoint)
    (frame_id : Int) (when_ns : Nat)
    (hid : 0 ≤ frame_id) (hlen : dt.frames.length = NUM_FRAMES) :
    (get_frame (dt_mark_point dt point frame_id when_ns) frame_id).state =
      mark_target_state point ∧
    mark_timestamp (get_frame (dt_mark_point dt point frame_id when_ns) frame_id)
      point = when_ns ∧
    (∀ fid' : Int, 0 ≤ fid' →
      fid' % (NUM_FRAMES : Int) ≠ frame_id % (NUM_FRAMES : Int) →
      get_frame (dt_mark_point dt point frame_id when_ns) fid' =
        get_frame dt fid') := by
  have hmodlt : (frame_id % (NUM_FRAMES : Int)).toNat < dt.frames.length := by
    rw [hlen]
    have h1 : 0 ≤ frame_id % (NUM_FRAMES : Int) :=
      Int.emod_nonneg frame_id (by norm_num [NUM_FRAMES])
    have h2 : frame_id % (NUM_FRAMES : Int) < (NUM_FRAMES : Int) :=
      Int.emod_lt_of_pos frame_id (by norm_num [NUM_FRAMES])
    omega
  have hself : ∀ f : Frame,
      get_frame (set_frame dt frame_id f) frame_id = f := by
    intro f
    simp only [get_frame, set_frame]
    exact listGetD_set_self dt.frames _ f default hmodlt
  have hother : ∀ (f : Frame) (fid' : Int), 0 ≤ fid' →
      fid' % (NUM_FRAMES : Int) ≠ frame_id % (NUM_FRAMES : Int) →
      get_frame (set_frame dt frame_id f) fid' = get_frame dt fid' := by
    intro f fid' hpos hne
    simp only [get_frame, set_frame]
    refine listGetD_set_ne dt.frames _ _ f default ?_
    intro he
    apply hne
    have h1 : 0 ≤ fid' % (NUM_FRAMES : Int) :=
      Int.emod_nonneg fid' (by norm_num [NUM_FRAMES])
    have h2 : 0 ≤ frame_id % (NUM_FRAMES : Int) :=
      Int.emod_nonneg frame_id (by norm_num [NUM_FRAMES])
    omega
  cases point with
  | WakeUp =>
    refine ⟨?_, ?_, fun fid' hpos hne => hother _ fid' hpos hne⟩
    · rw [show dt_mark_point dt UTimingPoint.WakeUp frame_id when_ns =
        set_frame dt frame_id { get_frame dt frame_id with
          state := FrameState.Woke, when_woke_ns := when_ns } from rfl, hself]
      rfl
    · rw [show dt_mark_point dt UTimingPoint.WakeUp frame_id when_ns =
        set_frame dt frame_id { get_frame dt frame_id with
          state := FrameState.Woke, when_woke_ns := when_ns } from rfl, hself]
      rfl
  | BeginPoint =>
    refine ⟨?_, ?_, fun fid' hpos hne => hother _ fid' hpos hne⟩
    · rw [show dt_mark_point dt UTimingPoint.BeginPoint frame_id when_ns =
        set_frame dt frame_id { get_frame dt frame_id with
          state := FrameState.Began, when_began_ns := when_ns } from rfl, hself]
      rfl
    · rw [show dt_mark_point dt UTimingPoint.BeginPoint frame_id when_ns =
        set_frame dt frame_id { get_frame dt frame_id with
          state := FrameState.Began, when_began_ns := when_ns } from rfl, hself]
      rfl
  | Submit =>
    refine ⟨?_, ?_, fun fid' hpos hne => hother _ fid' hpos hne⟩
    · rw [show dt_mark_point dt UTimingPoint.Submit frame_id when_ns =
        set_frame dt frame_id { get_frame dt frame_id with
          state := FrameState.Submitted, when_submitted_ns := when_ns } from rfl,
        hself]
      rfl
    · rw [show dt_mark_point dt UTimingPoint.Submit frame_id when_ns =
        set_frame dt frame_id { get_frame dt frame_id with
          state := FrameState.Submitted, when_submitted_ns := when_ns } from rfl,
        hself]
      rfl

/-- Witness for the amended C8 at a concrete out-of-phase mark. -/
theorem C8_amended_mark_always_applied_witness :
    (get_frame (dt_mark_point C8timing UTimingPoint.WakeUp 0 42) 0).state =
      FrameState.Woke ∧
    (get_frame (dt_mark_point C8timing UTimingPoint.WakeUp 0 42) 0).when_woke_ns
      = 42 ∧
    get_frame (dt_mark_point C8timing UTimingPoint.WakeUp 0 42) 1 =
      get_frame C8timing 1 := by
  have h := C8_amended_mark_always_applied C8timing UTimingPoint.WakeUp 0 42
    (by decide) (by decide)
  exact ⟨h.1, h.2.1, h.2.2 1 (by decide) (by decide)⟩

/-- `toInt64` is the identity below `2^63`. -/
theorem toInt64_of_lt {n : Nat} (h : n < 2 ^ 63) : toInt64 n = (n : Int) := by
  have h64 : n < 2 ^ 64 := lt_trans h (by norm_num)
  unfold toInt64
  rw [Nat.mod_eq_of_lt h64, if_pos h]

/-- Claim C3: a feedback sample whose actual present time exceeds the frame's
desired present time by more than half a millisecond takes the miss branch of
the adaptive controller, and the new `app_time_ns` is exactly the old one plus
`adjust_missed_ns`, clamped above by `app_time_max_ns`. -/
theorem C3_missed_frame_app_time (dt : DisplayTiming) (frame_id : Int)
    (desired actual earliest margin now_ns : Nat)
    (hmiss : (get_frame dt frame_id).desired_present_time_ns +
      U_TIME_HALF_MS_IN_NS < actual)
    (hact : actual < 2 ^ 63)
    (hsum : dt.app_time_ns + dt.adjust_missed_ns < 2 ^ 64) :
    (dt_info dt frame_id desired actual earliest margin now_ns).app_time_ns =
      min (dt.app_time_ns + dt.adjust_missed_ns) dt.app_time_max_ns := by
  have hdes : (get_frame dt frame_id).desired_present_time_ns < 2 ^ 63 := by
    have := hmiss
    omega
  have hgt : actual > (get_frame dt frame_id).desired_present_time_ns := by
    have := hmiss
    omega
  have hnotwithin : ¬ is_within_half_ms actual
      (get_frame dt frame_id).desired_present_time_ns := by
    intro hw
    rcases hw with ⟨_, hlt⟩
    rw [toInt64_of_lt hact, toInt64_of_lt hdes,
      toInt64_of_lt (show U_TIME_HALF_MS_IN_NS < 2 ^ 63 by norm_num
        [U_TIME_HALF_MS_IN_NS, U_TIME_1MS_IN_NS])] at hlt
    have : (actual : Int) - (get_frame dt frame_id).desired_present_time_ns ≥
        U_TIME_HALF_MS_IN_NS := by
      have := hmiss
      omega
    omega
  simp only [dt_info, adjust_app_time, set_frame]
  rw [if_pos ⟨hgt, hnotwithin⟩]
  simp only [add64, wrap64]
  rw [Nat.mod_eq_of_lt hsum]
  rcases le_or_lt (dt.app_time_ns + dt.adjust_missed_ns) dt.app_time_max_ns
    with hle | hlt
  · rw [if_neg (by omega), min_eq_left hle]
  · rw [if_pos hlt, min_eq_right (le_of_lt hlt)]

/-- Witness for C3: a miss by 0.6 ms from `app_time_ns = 20`,
`adjust_missed_ns = 7`, `app_time_max_ns = 25` clamps to 25. -/
theorem C3_missed_frame_app_time_witness :
    (dt_info C3timing 0 1000000 1600000 990 1000 1100).app_time_ns = 25 := by
  have h := C3_missed_frame_app_time C3timing 0 1000000 1600000 990 1000 1100
    (by decide) (by decide) (by decide)
  simpa [C3timing] using h

/-- With a positive period, the walk of
`get_last_input_plus_period_at_least_greater_then` ends strictly beyond
`then_ns`. -/
theorem walk_val_gt (period then_ns val : Nat) (hp : 0 < period) :
    then_ns < walk_val period then_ns val := by
  induction val using walk_val.induct period then_ns with
  | case1 v h ih =>
    rw [walk_val, dif_pos h]
    exact ih
  | case2 v h =>
    rw [walk_val, dif_neg h]
    rcases Nat.lt_or_ge then_ns v with hv | hv
    · exact hv
    · exact absurd ⟨hv, hp⟩ h

/-- `u_rt_helper_new_sample` leaves `last_returned` untouched, and so does any
sequence of broadcasts. -/
theorem applyNewSamples_last_returned (samples : List (Nat × Nat × Nat)) :
    ∀ urth : URtHelper, (applyNewSamples urth samples).last_returned =
      urth.last_returned := by
  induction samples with
  | nil => intro urth; rfl
  | cons s rest ih =>
    intro urth
    show (applyNewSamples (u_rt_helper_new_sample urth s.1 s.2.1 s.2.2)
      rest).last_returned = urth.last_returned
    rw [ih]
    rfl

/-- The display time `u_rt_helper_predict` returns is what it stores into
`last_returned`. -/
theorem predict_display_eq_last_returned (urth : URtHelper) (now_ns now2_ns : Nat) :
    (u_rt_helper_predict urth now_ns now2_ns).1.predicted_display_time =
      (u_rt_helper_predict urth now_ns now2_ns).2.last_returned := rfl

/-- Claim C4: across two consecutive `u_rt_helper_predict` calls of one client,
with any sequence of `u_rt_helper_new_sample` broadcasts in between and any
clock readings, the later predicted display time is at least the earlier one —
the helper clamps the prediction base to `last_returned` and the walk only
moves forward (assuming the period in force at the second call is positive,
without which the source's walk loop would not terminate). -/
theorem C4_predict_display_monotonic (urth : URtHelper) (now1 now1b : Nat)
    (samples : List (Nat × Nat × Nat)) (now2 now2b : Nat)
    (hp : 0 < (applyNewSamples (u_rt_helper_predict urth now1 now1b).2
      samples).period) :
    (u_rt_helper_predict urth now1 now1b).1.predicted_display_time ≤
      (u_rt_helper_predict
        (applyNewSamples (u_rt_helper_predict urth now1 now1b).2 samples)
        now2 now2b).1.predicted_display_time := by
  set u1 := (u_rt_helper_predict urth now1 now1b).2 with hu1
  set u2 := applyNewSamples u1 samples with hu2
  have hlr : u2.last_returned = u1.last_returned :=
    applyNewSamples_last_returned samples u1
  have hr1 : (u_rt_helper_predict urth now1 now1b).1.predicted_display_time =
      u1.last_returned := rfl
  have hr2 : (u_rt_helper_predict u2 now2 now2b).1.predicted_display_time =
      walk_val u2.period
        (if now2 < u2.last_returned then u2.last_returned else now2)
        u2.last_input := rfl
  rw [hr1, hr2]
  have hge : u2.last_returned ≤
      (if now2 < u2.last_returned then u2.last_returned else now2) := by
    split <;> omega
  have hgt := walk_val_gt u2.period
    (if now2 < u2.last_returned then u2.last_returned else now2)
    u2.last_input hp
  omega

/-- Witness for C4: a concrete helper, one broadcast in between. -/
theorem C4_predict_display_monotonic_witness :
    (u_rt_helper_predict C4helper 10 11).1.predicted_display_time ≤
      (u_rt_helper_predict
        (applyNewSamples (u_rt_helper_predict C4helper 10 11).2 [(100, 0, 3)])
        0 1).1.predicted_display_time :=
  C4_predict_display_monotonic C4helper 10 11 [(100, 0, 3)] 0 1 (by decide)

/-- Every entry the `z_data` init loop produces has z strictly above
`INT32_MIN`, provided every active overlay's z does (the inactive filler
entries carry z = -1). -/
theorem zDataInitFrom_z_gt (clients : List IpcClientState)
    (hz : ∀ c ∈ clients, c.session_overlay = true → c.session_active = true →
      INT32_MIN < c.z_order) :
    ∀ (i : Nat), ∀ x ∈ zDataInitFrom i clients, INT32_MIN < x.z_order := by
  induction clients with
  | nil =>
    intro i x hx
    simp [zDataInitFrom] at hx
  | cons c cs ih =>
    intro i x hx
    rcases List.mem_cons.mp hx with rfl | hx
    · unfold baseZEntry
      split_ifs with h1 h2
      · exact hz c (List.mem_cons_self c cs) h1 h2
      · decide
      · decide
    · exact ih (fun c' hc' => hz c' (List.mem_cons_of_mem c hc')) (i + 1) x hx

/-- The init loop produces one entry per client. -/
theorem zDataInitFrom_length :
    ∀ (clients : List IpcClientState) (i : Nat),
      (zDataInitFrom i clients).length = clients.length := by
  intro clients
  induction clients with
  | nil => intro i; rfl
  | cons c cs ih => intro i; simp [zDataInitFrom, ih]

/-- When an active primary exists and its index is in range, its
`{index, INT32_MIN}` entry is in the `z_data` array. -/
theorem primary_mem_setPrimary (clients : List IpcClientState) (active : Int)
    (hact : 0 ≤ active) (hlen : active.toNat < clients.length) :
    (⟨active, INT32_MIN⟩ : ZSortData) ∈ setPrimary (zDataInit clients) active := by
  unfold setPrimary
  rw [if_pos hact]
  refine listMem_set_self _ _ _ ?_
  rw [zDataInit, zDataInitFrom_length]
  exact hlen

/-- When every active overlay's z exceeds `INT32_MIN`, the primary entry is the
unique entry of the `z_data` array with z at most `INT32_MIN`. -/
theorem min_entry_unique (clients : List IpcClientState) (active : Int)
    (hact : 0 ≤ active)
    (hz : ∀ c ∈ clients, c.session_overlay = true → c.session_active = true →
      INT32_MIN < c.z_order) :
    ∀ x ∈ setPrimary (zDataInit clients) active, x.z_order ≤ INT32_MIN →
      x = ⟨active, INT32_MIN⟩ := by
  intro x hx hxz
  unfold setPrimary at hx
  rw [if_pos hact] at hx
  rcases listMem_set _ _ _ _ hx with h | h
  · exact absurd (zDataInitFrom_z_gt clients hz 0 x h) (not_lt.mpr hxz)
  · exact h

/-- In a list sorted by z whose member `p` is the unique entry of minimal z,
`p` is the head. -/
theorem sorted_head_unique_min (l : List ZSortData) (p : ZSortData)
    (hs : l.Sorted zLE) (hp : p ∈ l)
    (hmin : ∀ x ∈ l, x.z_order ≤ p.z_order → x = p) :
    l.head? = some p := by
  cases l with
  | nil => simp at hp
  | cons a t =>
    rcases List.mem_cons.mp hp with rfl | hpt
    · rfl
    · have ha : a.z_order ≤ p.z_order := (List.sorted_cons.mp hs).1 p hpt
      have := hmin a (List.mem_cons_self a t) ha
      rw [List.head?_cons, this]

/-- Counterexample to claim C1: for the primary at index 0 and two active
overlays with equal `z_order`, the reversed-tie list `C1swapped` is a
legitimate `qsort` output (same multiset, ordered by the comparator — `qsort`
gives no stability guarantee), yet the client dispatch order it produces
differs from the stable ascending order the claim requires. -/
theorem C1_qsort_tie_not_stable :
    isQsortOutput C1input C1swapped ∧
    renderOrder C1swapped ≠ stableRenderOrder C1clients 0 := by
  refine ⟨⟨?_, ?_⟩, ?_⟩
  · decide
  · decide
  · decide

/-- Claim C1 as amended: every `qsort` output dispatches exactly the valid
entries of the `z_data` array (the active primary entry at `INT32_MIN` plus the
active overlays), in some order ascending by z; entries with equal z may come
in any order, and the active primary is dispatched first provided every active
overlay's z exceeds `INT32_MIN`. -/
theorem C1_amended_render_order (clients : List IpcClientState) (active : Int)
    (outp : List ZSortData)
    (hlen : 0 ≤ active → active.toNat < clients.length)
    (hq : isQsortOutput (setPrimary (zDataInit clients) active) outp) :
    (validEntries outp).Perm
      (validEntries (setPrimary (zDataInit clients) active)) ∧
    (validEntries outp).Sorted zLE ∧
    (0 ≤ active →
      (∀ c ∈ clients, c.session_overlay = true → c.session_active = true →
        INT32_MIN < c.z_order) →
      (renderOrder outp).head? = some active) := by
  obtain ⟨hperm, hsort⟩ := hq
  refine ⟨(hperm.symm).filter _, List.Pairwise.filter _ hsort, ?_⟩
  intro hact hz
  have hpmem : (⟨active, INT32_MIN⟩ : ZSortData) ∈ outp :=
    hperm.mem_iff.mp (primary_mem_setPrimary clients active hact (hlen hact))
  have hmin : ∀ x ∈ outp, x.z_order ≤ INT32_MIN → x = ⟨active, INT32_MIN⟩ :=
    fun x hx hxz =>
      min_entry_unique clients active hact hz x (hperm.mem_iff.mpr hx) hxz
  have hhead := sorted_head_unique_min outp ⟨active, INT32_MIN⟩ hsort hpmem hmin
  cases outp with
  | nil => simp at hpmem
  | cons a t =>
    have ha : a = ⟨active, INT32_MIN⟩ := by simpa using hhead
    subst ha
    have hv : decide (0 ≤ (⟨active, INT32_MIN⟩ : ZSortData).index) = true :=
      decide_eq_true hact
    simp [renderOrder, validEntries, List.filter_cons, hv]

/-- Witness for the amended C1 at the concrete three-client configuration. -/
theorem C1_amended_render_order_witness :
    (validEntries C1sorted).Perm (validEntries C1input) ∧
    (validEntries C1sorted).Sorted zLE ∧
    (renderOrder C1sorted).head? = some 0 := by
  have h := C1_amended_render_order C1clients 0 C1sorted (by decide)
    ⟨by decide, by decide⟩
  exact ⟨h.1, h.2.1, h.2.2 (by decide) (by decide)⟩

end Monado
